import Mathlib

set_option maxRecDepth 16384

/-!
Shallow embedding of src/main.py (gold-price chat plugin).

The program has three relevant pieces:
  * fetch_data          (lines 18-41): one HTTP GET; returns the parsed JSON
    dict on success and None on every failure (non-200 status, JSON decode
    failure, transport error, unknown exception).
  * _format_change      (lines 43-54): formats a percent-change string by
    parsing it with float(); sign decides an up / down / flat marker, a
    parse failure returns the raw string unchanged.
  * gold_price handler  (lines 56-117): validates the payload shape, takes
    the first five entries, renders a block per entry (skipping entries
    with a missing field), and appends an update-time line.

JSON dicts are modelled as records of optional typed fields plus a list of
extra keys (so that Python truthiness of the dict, line 65 "if not data:",
is expressible).  The status code is modelled as an optional integer, field
values as optional strings.  Python float() parsing is modelled over the
rationals: Python whitespace stripping, PEP 515 underscores, the
case-insensitive literals inf / infinity / nan, and decimal literals with
an optional sign, fraction and exponent.  Of IEEE-754 rounding exactly the
underflow collapse to zero is modelled, because it is the only rounding
effect that can change a comparison with zero, which is all the program
does with the value; non-ASCII Unicode decimal digit code points accepted
by CPython are outside the model.
-/

/-- One element of the "data" array: a dict with five optional string
fields, as read by lines 98-101 of the source. -/
structure Entry where
  title : Option String
  price : Option String
  changepercent : Option String
  maxprice : Option String
  minprice : Option String
deriving DecidableEq, Repr

/-- The JSON value stored under the "data" key: either a list (the only
shape line 82 accepts) or some other JSON value, kept abstract as a
description string. -/
inductive DataField where
  | list (entries : List Entry)
  | nonList (descr : String)
deriving DecidableEq, Repr

/-- The top-level JSON payload as a dict: optional typed fields for the
keys the code reads, plus the remaining keys (values irrelevant) so that
dict truthiness is expressible. -/
structure Payload where
  code : Option Int
  msg : Option String
  data : Option DataField
  time : Option String
  api_source : Option String
  extraKeys : List String
deriving DecidableEq, Repr

/-- Python truthiness of the payload dict: a dict is falsy iff it has no
keys at all (line 65, "if not data:"). -/
def Payload.falsy (p : Payload) : Bool :=
  p.code.isNone && p.msg.isNone && p.data.isNone && p.time.isNone &&
    p.api_source.isNone && p.extraKeys.isEmpty

/-- Outcome of the single HTTP GET performed by fetch_data: a response
carrying a status and the JSON parse of its body (none when the body is not
valid JSON), a transport failure (aiohttp.ClientError), or any other
exception. -/
inductive HttpOutcome where
  | response (status : Nat) (bodyJson : Option Payload)
  | clientError (detail : String)
  | otherError (detail : String)
deriving DecidableEq, Repr

/-- fetch_data, lines 18-41, together with whether resp.json() was invoked:
on a non-200 status it returns None before parsing (lines 26-28); on a 200
status it parses, returning None on a decode failure (lines 30-34); any
transport or unknown exception returns None (lines 36-41). -/
def fetch_dataRun : HttpOutcome → Option Payload × Bool
  | HttpOutcome.response status bodyJson =>
      if status = 200 then (bodyJson, true) else (none, false)
  | HttpOutcome.clientError _ => (none, false)
  | HttpOutcome.otherError _ => (none, false)

/-- The value fetch_data returns to its caller. -/
def fetch_data (o : HttpOutcome) : Option Payload :=
  (fetch_dataRun o).1

/-- Whether fetch_data attempted to parse the response body as JSON. -/
def fetch_dataParsed (o : HttpOutcome) : Bool :=
  (fetch_dataRun o).2

/-- Numeric value of a digit list, most significant first. -/
def digitsToNat (l : List Char) : Nat :=
  l.foldl (fun a c => a * 10 + (c.toNat - 48)) 0

/-- The result of Python float(s): a finite value, a signed infinity, or
nan. -/
inductive PyFloat where
  | finite (q : Rat)
  | inf (neg : Bool)
  | nan
deriving DecidableEq, Repr

/-- The Python comparison v > 0 on a float result (nan compares False). -/
def PyFloat.isPos : PyFloat → Bool
  | PyFloat.finite q => decide (0 < q)
  | PyFloat.inf neg => !neg
  | PyFloat.nan => false

/-- The Python comparison v < 0 on a float result (nan compares False). -/
def PyFloat.isNeg : PyFloat → Bool
  | PyFloat.finite q => decide (q < 0)
  | PyFloat.inf neg => neg
  | PyFloat.nan => false

/-- The whitespace code points float() strips from a str argument
(Py_UNICODE_ISSPACE): 0x09-0x0d, 0x1c-0x1f, space, NEL, NBSP, and the
Unicode space separators. -/
def pyIsSpace (c : Char) : Bool :=
  let n := c.toNat
  (9 ≤ n && n ≤ 13) || (28 ≤ n && n ≤ 32) || n = 0x85 || n = 0xa0 ||
    n = 0x1680 || (0x2000 ≤ n && n ≤ 0x200a) || n = 0x2028 || n = 0x2029 ||
    n = 0x202f || n = 0x205f || n = 0x3000

/-- PEP 515 validation, as CPython applies it to float() input: every
underscore must be directly preceded and directly followed by a digit.
The first argument is the preceding character, if any. -/
def underscoresBetweenDigits : Option Char → List Char → Bool
  | _, [] => true
  | prev, c :: rest =>
    if c = '_' then
      (match prev with
        | some p => p.isDigit
        | none => false) &&
      (match rest with
        | d :: _ => d.isDigit
        | [] => false) &&
      underscoresBetweenDigits (some c) rest
    else underscoresBetweenDigits (some c) rest

/-- Rounding a nonzero exact value to an IEEE-754 double changes the
outcome of a comparison with zero only when the magnitude is at or below
half of the smallest subnormal, 2 ^ (-1075): such values round to zero
(ties-to-even at the boundary).  Overflow keeps the sign (an infinity
compares with zero like any huge finite value), and rounding inside the
finite range never changes the sign, so this collapse is the only rounding
effect modelled; elsewhere the exact rational is kept, which is faithful
for every comparison with zero the program performs. -/
def collapseTiny (v : Rat) : Rat :=
  if -mkRat 1 (2 ^ 1075) ≤ v ∧ v ≤ mkRat 1 (2 ^ 1075) then 0 else v

/-- Model of Python float(s) on str input: strip Python whitespace,
validate PEP 515 underscores and drop them, read an optional sign, accept
the case-insensitive literals inf / infinity / nan, and otherwise read a
decimal literal (digits with an optional fractional part, at least one
digit overall, and an optional e / E exponent), whose exact rational value
is kept up to the comparison-relevant underflow collapse (collapseTiny).
Returns none where float() raises ValueError.  Residual model limit:
CPython also accepts non-ASCII Unicode decimal digit code points; those
are outside the model. -/
def parsePyFloat (s : String) : Option PyFloat :=
  let l0 := ((s.data.dropWhile pyIsSpace).reverse.dropWhile pyIsSpace).reverse
  if !underscoresBetweenDigits none l0 then none
  else
    let lc := l0.filter (fun c => c ≠ '_')
    let signAndRest : Bool × List Char :=
      match lc with
      | '+' :: rest => (false, rest)
      | '-' :: rest => (true, rest)
      | _ => (false, lc)
    let neg := signAndRest.1
    let l1 := signAndRest.2
    if l1.map Char.toLower = "inf".data ∨
        l1.map Char.toLower = "infinity".data then
      some (PyFloat.inf neg)
    else if l1.map Char.toLower = "nan".data then
      some PyFloat.nan
    else
      let intPart := l1.takeWhile Char.isDigit
      let afterInt := l1.dropWhile Char.isDigit
      let fracAndRest : List Char × List Char :=
        match afterInt with
        | '.' :: rest =>
            (rest.takeWhile Char.isDigit, rest.dropWhile Char.isDigit)
        | _ => ([], afterInt)
      let fracPart := fracAndRest.1
      let afterFrac := fracAndRest.2
      if intPart.isEmpty && fracPart.isEmpty then none
      else
        let mantDigits := digitsToNat (intPart ++ fracPart)
        let finish : Int → Option PyFloat := fun ex10 =>
          let mag : Rat :=
            if 0 ≤ ex10 then
              mkRat ((mantDigits : Int) * (10 : Int) ^ ex10.toNat) 1
            else mkRat (mantDigits : Int) ((10 : Nat) ^ (-ex10).toNat)
          some (PyFloat.finite (collapseTiny (if neg then -mag else mag)))
        match afterFrac with
        | [] => finish (-(fracPart.length : Int))
        | e :: rest =>
          if e = 'e' ∨ e = 'E' then
            let esignAndRest : Bool × List Char :=
              match rest with
              | '+' :: r => (false, r)
              | '-' :: r => (true, r)
              | _ => (false, rest)
            let eDigits := esignAndRest.2.takeWhile Char.isDigit
            let afterExp := esignAndRest.2.dropWhile Char.isDigit
            if eDigits.isEmpty || !afterExp.isEmpty then none
            else
              let ex : Int :=
                if esignAndRest.1 then -(digitsToNat eDigits : Int)
                else (digitsToNat eDigits : Int)
              finish (ex - (fracPart.length : Int))
          else none

/-- _format_change, lines 43-54: parse the string as a float; positive
values get an up marker and a leading plus, negative a down marker with the
sign kept as written, zero (and nan, for which both comparisons are False)
a flat marker, each suffixed with a percent sign; a parse failure returns
the raw string unchanged. -/
def _format_change (change : String) : String :=
  match parsePyFloat change with
  | some v =>
    if v.isPos then "📈 +" ++ change ++ "%"
    else if v.isNeg then "📉 " ++ change ++ "%"
    else "➖ " ++ change ++ "%"
  | none => change

/-- The display block for one complete entry (the f-string of lines
97-103). -/
def entryBlock (t pr ch mx mn : String) : String :=
  "🔸 " ++ t ++ "\n  现价：" ++ pr ++ "元/克\n  涨跌：" ++ _format_change ch ++
    "\n  最高：" ++ mx ++ " | 最低：" ++ mn ++ "\n🍞" ++
    String.mk (List.replicate 20 '━')

/-- Per-entry rendering, lines 95-106: an entry with all five fields
present renders to its block; a missing field raises KeyError, which is
caught and the entry skipped (returns none). -/
def renderEntry (e : Entry) : Option String :=
  match e.title, e.price, e.changepercent, e.maxprice, e.minprice with
  | some t, some pr, some ch, some mx, some mn =>
      some (entryBlock t pr ch mx mn)
  | _, _, _, _, _ => none

/-- The update-time value, line 109: when the "time" key is present, the
part of its value before the first dot (Python split and index 0); when
absent, the placeholder. -/
def timestampOf (p : Payload) : String :=
  match p.time with
  | some t => String.mk (t.data.takeWhile (fun c => c ≠ '.'))
  | none => "未知时间"

/-- The outcome delivered to the chat context: CommandResult().message or
CommandResult().error. -/
inductive CommandOutput where
  | message (text : String)
  | errorMsg (text : String)
deriving DecidableEq, Repr

/-- Whether the outcome is an error delivery. -/
def CommandOutput.isError : CommandOutput → Bool
  | CommandOutput.message _ => false
  | CommandOutput.errorMsg _ => true

/-- Lines 88-113: take the first five entries; an empty slice yields the
informational no-data message; otherwise assemble the header, the blocks of
the entries that render, and the update-time line, joined by newlines. -/
def formatValid (es : List Entry) (p : Payload) : CommandOutput :=
  let gold_list := es.take 5
  if gold_list.isEmpty then CommandOutput.message "🕒 当前无黄金行情数据"
  else
    CommandOutput.message (String.intercalate "\n"
      ("💰【实时黄金价格TOP5】💰\n" :: gold_list.filterMap renderEntry ++
        ["\n⏰ 更新时间：" ++ timestampOf p]))

/-- The gold_price handler body applied to the fetch result, lines 64-113:
a None or falsy payload yields the connection-failure error (line 65);
a payload missing the "code" or "data" key yields the key-shape error
(lines 70-73); a code other than 200 yields the remote error carrying msg
or its default (lines 76-79); a non-list "data" yields the type-shape error
(lines 82-85); otherwise render. -/
def gold_price (fetched : Option Payload) : CommandOutput :=
  match fetched with
  | none => CommandOutput.errorMsg "⚠️ 连接黄金数据源失败，请稍后重试"
  | some p =>
    if p.falsy then CommandOutput.errorMsg "⚠️ 连接黄金数据源失败，请稍后重试"
    else if p.code.isNone || p.data.isNone then
      CommandOutput.errorMsg "❗ 数据格式异常，请联系管理员"
    else if p.code ≠ some 200 then
      CommandOutput.errorMsg ("❌ 数据获取失败：" ++ p.msg.getD "未知错误")
    else
      match p.data with
      | some (DataField.list es) => formatValid es p
      | _ => CommandOutput.errorMsg "❗ 数据解析失败，请稍后再试"

/-- The handler with an ambient wall clock threaded through: the source
never consults any clock while rendering (the displayed timestamp is read
from the payload, line 109), so the clock parameter is unused. -/
def gold_priceAt (renderClock : String) (fetched : Option Payload) :
    CommandOutput :=
  gold_price fetched

/-- Substring relation on strings, via the infix relation of the
underlying character lists. -/
abbrev strContains (hay needle : String) : Prop :=
  needle.data <:+: hay.data

/-- Eight complete sample entries, used by the concrete checks below. -/
def sampleEntries8 : List Entry :=
  [⟨some "T1", some "480.5", some "-1.2", some "482", some "478"⟩,
   ⟨some "T2", some "481", some "0.4", some "483", some "479"⟩,
   ⟨some "T3", some "482", some "0", some "484", some "480"⟩,
   ⟨some "T4", some "483", some "1.1", some "485", some "481"⟩,
   ⟨some "T5", some "484", some "-0.2", some "486", some "482"⟩,
   ⟨some "T6", some "485", some "2", some "487", some "483"⟩,
   ⟨some "T7", some "486", some "-3", some "488", some "484"⟩,
   ⟨some "T8", some "487", some "5", some "489", some "485"⟩]

/-- A sample data list whose second entry is missing its price field. -/
def mixedEntries : List Entry :=
  [⟨some "AU9999", some "480.5", some "-1.2", some "482", some "478"⟩,
   ⟨some "沪金95", none, some "0.5", some "481", some "477"⟩,
   ⟨some "黄金延期", some "479", some "0", some "481", some "476"⟩]

/-- A valid sample payload carrying the eight complete entries. -/
def payload8 : Payload :=
  ⟨some 200, none, some (DataField.list sampleEntries8),
    some "2024-01-01 12:30:45.123", some "api", []⟩

/-- A valid sample payload carrying the mixed entry list. -/
def payloadMixed : Payload :=
  ⟨some 200, none, some (DataField.list mixedEntries),
    some "2024-05-06 08:09:10.5", none, []⟩

/-- The remote-failure scenario payload, augmented with a data key. -/
def remoteErrPayload : Payload :=
  ⟨some 500, some "upstream down", some (DataField.list []), none, none, []⟩

/-- Helper: filterMap is a map when every element maps to some. -/
theorem filterMap_eq_map_getD {α β : Type} (f : α → Option β) (d : β) :
    ∀ l : List α, (∀ e ∈ l, (f e).isSome = true) →
      l.filterMap f = l.map fun e => (f e).getD d := by
  intro l
  induction l with
  | nil => intro _; rfl
  | cons a t ih =>
    intro h
    obtain ⟨b, hb⟩ := Option.isSome_iff_exists.mp (h a (by simp))
    simp [List.filterMap_cons, hb, ih fun e he => h e (by simp [he])]

/-- Helper: strings whose first characters differ are different. -/
theorem ne_of_data_head {x y : String} {cx cy : Char}
    (hx : x.data.head? = some cx) (hy : y.data.head? = some cy)
    (hne : cx ≠ cy) : x ≠ y := by
  intro h
  rw [h] at hx
  rw [hy] at hx
  exact hne (Option.some.inj hx).symm

/-- Helper: first character of the up-marker output. -/
theorem up_string_head (s : String) :
    ("📈 +" ++ s ++ "%").data.head? = some '📈' := by
  rw [String.data_append, String.data_append]
  rfl

/-- Helper: first character of the down-marker output. -/
theorem down_string_head (s : String) :
    ("📉 " ++ s ++ "%").data.head? = some '📉' := by
  rw [String.data_append, String.data_append]
  rfl

/-- Helper: first character of the flat-marker output. -/
theorem flat_string_head (s : String) :
    ("➖ " ++ s ++ "%").data.head? = some '➖' := by
  rw [String.data_append, String.data_append]
  rfl

/-- Helper: a valid payload with a nonempty five-entry slice renders the
assembled message. -/
theorem gold_price_render_eq (p : Payload) (es : List Entry)
    (hc : p.code = some 200) (hd : p.data = some (DataField.list es))
    (h5 : (es.take 5).isEmpty = false) :
    gold_price (some p) =
      CommandOutput.message (String.intercalate "\n"
        ("💰【实时黄金价格TOP5】💰\n" :: (es.take 5).filterMap renderEntry ++
          ["\n⏰ 更新时间：" ++ timestampOf p])) := by
  simp [gold_price, Payload.falsy, hc, hd, formatValid, h5]

/-- Helper: a valid payload with an empty five-entry slice yields the
informational no-data message. -/
theorem gold_price_empty_slice (p : Payload) (es : List Entry)
    (hc : p.code = some 200) (hd : p.data = some (DataField.list es))
    (h5 : (es.take 5).isEmpty = true) :
    gold_price (some p) = CommandOutput.message "🕒 当前无黄金行情数据" := by
  simp [gold_price, Payload.falsy, hc, hd, formatValid, h5]

/-- C1 counterexample: the scenario payload with code 500 and msg
"upstream down" has no data key, so the handler returns the key-shape
error, whose text does not contain the msg value, not a remote error. -/
theorem C1_counterexample_no_data_key :
    gold_price (some ⟨some 500, some "upstream down", none, none, none, []⟩) =
      CommandOutput.errorMsg "❗ 数据格式异常，请联系管理员" ∧
    ¬ strContains "❗ 数据格式异常，请联系管理员" "upstream down" := by
  refine ⟨by decide, by decide⟩

/-- C1 (amended): for every payload containing both the code and data keys
whose code is not 200, the handler returns the remote-error message
carrying the msg value, or the default unknown-error string when msg is
absent. -/
theorem C1_amended_remote_error (p : Payload) (c : Int)
    (hc : p.code = some c) (hne : c ≠ 200) (hd : p.data.isSome = true) :
    gold_price (some p) =
      CommandOutput.errorMsg ("❌ 数据获取失败：" ++ p.msg.getD "未知错误") ∧
    (∀ m, p.msg = some m →
      strContains ("❌ 数据获取失败：" ++ p.msg.getD "未知错误") m) ∧
    (p.msg = none →
      strContains ("❌ 数据获取失败：" ++ p.msg.getD "未知错误") "未知错误") := by
  obtain ⟨d, hdd⟩ := Option.isSome_iff_exists.mp hd
  refine ⟨?_, ?_, ?_⟩
  · simp [gold_price, Payload.falsy, hc, hdd, hne]
  · intro m hm
    rw [hm]
    exact ⟨"❌ 数据获取失败：".data, [], by simp [String.data_append]⟩
  · intro hm
    rw [hm]
    exact ⟨"❌ 数据获取失败：".data, [], by simp [String.data_append]⟩

/-- C1 witness: the scenario payload augmented with a data key yields the
remote error containing the msg value. -/
theorem C1_amended_remote_error_witness :
    gold_price (some remoteErrPayload) =
      CommandOutput.errorMsg "❌ 数据获取失败：upstream down" ∧
    strContains "❌ 数据获取失败：upstream down" "upstream down" := by
  have h := C1_amended_remote_error remoteErrPayload 500 rfl (by decide) rfl
  refine ⟨h.1.trans (by decide), ?_⟩
  exact h.2.1 "upstream down" rfl

/-- C2: for a string that parses as a decimal number, _format_change marks
it up with a leading plus exactly when the value is positive, down with the
sign kept as written exactly when negative, and flat exactly when zero,
each suffixed with a percent sign and containing the original string; a
string that does not parse is returned unchanged. -/
theorem C2_format_change_trichotomy (s : String) :
    (∀ q : Rat, parsePyFloat s = some (PyFloat.finite q) →
      ((0 < q ↔ _format_change s = "📈 +" ++ s ++ "%") ∧
        (q < 0 ↔ _format_change s = "📉 " ++ s ++ "%") ∧
        (q = 0 ↔ _format_change s = "➖ " ++ s ++ "%"))) ∧
    (parsePyFloat s = none → _format_change s = s) := by
  constructor
  · intro q hq
    have hup : 0 < q → _format_change s = "📈 +" ++ s ++ "%" := by
      intro h
      simp only [_format_change, hq, PyFloat.isPos, decide_eq_true_eq]
      rw [if_pos h]
    have hdown : q < 0 → _format_change s = "📉 " ++ s ++ "%" := by
      intro h
      simp only [_format_change, hq, PyFloat.isPos, PyFloat.isNeg,
        decide_eq_true_eq]
      rw [if_neg (not_lt.mpr h.le), if_pos h]
    have hflat : q = 0 → _format_change s = "➖ " ++ s ++ "%" := by
      intro h
      subst h
      simp only [_format_change, hq, PyFloat.isPos, PyFloat.isNeg,
        decide_eq_true_eq]
      rw [if_neg (lt_irrefl 0), if_neg (lt_irrefl 0)]
    have hud : ("📈 +" ++ s ++ "%") ≠ "📉 " ++ s ++ "%" :=
      ne_of_data_head (up_string_head s) (down_string_head s) (by decide)
    have huf : ("📈 +" ++ s ++ "%") ≠ "➖ " ++ s ++ "%" :=
      ne_of_data_head (up_string_head s) (flat_string_head s) (by decide)
    have hdf : ("📉 " ++ s ++ "%") ≠ "➖ " ++ s ++ "%" :=
      ne_of_data_head (down_string_head s) (flat_string_head s) (by decide)
    refine ⟨⟨hup, ?_⟩, ⟨hdown, ?_⟩, ⟨hflat, ?_⟩⟩
    · intro he
      rcases lt_trichotomy q 0 with h | h | h
      · exact absurd (((hdown h).symm.trans he).symm) hud
      · exact absurd (((hflat h).symm.trans he).symm) huf
      · exact h
    · intro he
      rcases lt_trichotomy q 0 with h | h | h
      · exact h
      · exact absurd (((hflat h).symm.trans he).symm) hdf
      · exact absurd ((hup h).symm.trans he) hud
    · intro he
      rcases lt_trichotomy q 0 with h | h | h
      · exact absurd ((hdown h).symm.trans he) hdf
      · exact h
      · exact absurd ((hup h).symm.trans he) huf
  · intro h
    simp [_format_change, h]

/-- C2 witness: the scenario string -1.2 parses negative and renders with
the down marker preserving the sign; the underflowing literal 1e-400
parses to zero (as float() rounds it) and renders flat; the underscore
literal 1_0 parses positive and renders up; a non-numeric string is
unchanged. -/
theorem C2_format_change_trichotomy_witness :
    _format_change "-1.2" = "📉 -1.2%" ∧
    _format_change "1e-400" = "➖ 1e-400%" ∧
    _format_change "1_0" = "📈 +1_0%" ∧
    _format_change "abc" = "abc" := by
  refine ⟨?_, ?_, ?_, ?_⟩
  · have h := (C2_format_change_trichotomy "-1.2").1 (mkRat (-12) 10) (by decide)
    exact (h.2.1.mp (by decide)).trans (by decide)
  · have h := (C2_format_change_trichotomy "1e-400").1 0 (by decide)
    exact (h.2.2.mp rfl).trans (by decide)
  · have h := (C2_format_change_trichotomy "1_0").1 (mkRat 10 1) (by decide)
    exact (h.1.mp (by decide)).trans (by decide)
  · exact (C2_format_change_trichotomy "abc").2 (by decide)

/-- C3 counterexample: the empty payload (a valid JSON object lacking the
data key) is reported as a fetch failure, and a non-sequence data with a
non-200 code is reported as a remote error; neither is a malformed-shape
error. -/
theorem C3_counterexample_non_shape_errors :
    gold_price (some ⟨none, none, none, none, none, []⟩) =
      CommandOutput.errorMsg "⚠️ 连接黄金数据源失败，请稍后重试" ∧
    gold_price (some ⟨some 500, some "m", some (DataField.nonList "str"),
      none, none, []⟩) = CommandOutput.errorMsg "❌ 数据获取失败：m" ∧
    CommandOutput.errorMsg "⚠️ 连接黄金数据源失败，请稍后重试" ≠
      CommandOutput.errorMsg "❗ 数据格式异常，请联系管理员" ∧
    CommandOutput.errorMsg "❌ 数据获取失败：m" ≠
      CommandOutput.errorMsg "❗ 数据解析失败，请稍后再试" := by
  refine ⟨by decide, by decide, by decide, by decide⟩

/-- C3 (amended): for every nonempty payload lacking the code key or the
data key the handler returns the key-shape error, and for every payload
with code 200 whose data value is not a sequence it returns the type-shape
error; the empty payload and a non-sequence data under a non-200 code are
reported differently. -/
theorem C3_amended_shape_errors (p : Payload) (hnf : p.falsy = false) :
    ((p.code = none ∨ p.data = none) →
      gold_price (some p) = CommandOutput.errorMsg "❗ 数据格式异常，请联系管理员") ∧
    (∀ d, p.code = some 200 → p.data = some (DataField.nonList d) →
      gold_price (some p) = CommandOutput.errorMsg "❗ 数据解析失败，请稍后再试") := by
  constructor
  · intro h
    rcases h with h | h <;> simp [gold_price, hnf, h]
  · intro d hc hd
    simp [gold_price, hnf, hc, hd]

/-- C3 witness: a nonempty payload lacking both keys yields the key-shape
error, and a payload with code 200 and a non-list data yields the
type-shape error. -/
theorem C3_amended_shape_errors_witness :
    gold_price (some ⟨none, some "x", none, none, none, []⟩) =
      CommandOutput.errorMsg "❗ 数据格式异常，请联系管理员" ∧
    gold_price (some ⟨some 200, none, some (DataField.nonList "str"),
      none, none, []⟩) = CommandOutput.errorMsg "❗ 数据解析失败，请稍后再试" :=
  ⟨(C3_amended_shape_errors ⟨none, some "x", none, none, none, []⟩
      (by decide)).1 (Or.inl rfl),
   (C3_amended_shape_errors ⟨some 200, none, some (DataField.nonList "str"),
      none, none, []⟩ (by decide)).2 "str" rfl rfl⟩

/-- C4: for a valid payload with code 200 and eight complete entries, the
rendered output lists exactly the blocks of the first five entries, in
source order, and none of the last three. -/
theorem C4_truncation_top5 (p : Payload) (es : List Entry)
    (hc : p.code = some 200) (hd : p.data = some (DataField.list es))
    (hlen : es.length = 8) (hall : ∀ e ∈ es, (renderEntry e).isSome = true) :
    gold_price (some p) =
      CommandOutput.message (String.intercalate "\n"
        ("💰【实时黄金价格TOP5】💰\n" ::
          (es.take 5).map (fun e => (renderEntry e).getD "") ++
          ["\n⏰ 更新时间：" ++ timestampOf p])) ∧
    ((es.take 5).map (fun e => (renderEntry e).getD "")).length = 5 := by
  have hmap : (es.take 5).filterMap renderEntry =
      (es.take 5).map fun e => (renderEntry e).getD "" :=
    filterMap_eq_map_getD renderEntry "" (es.take 5)
      (fun e he => hall e (List.take_subset 5 es he))
  have hlen5 : (es.take 5).length = 5 := by
    rw [List.length_take, hlen]
    omega
  have h5 : (es.take 5).isEmpty = false := by
    rcases he : es.take 5 with _ | ⟨a, t⟩
    · rw [he] at hlen5
      simp at hlen5
    · rfl
  constructor
  · rw [← hmap]
    exact gold_price_render_eq p es hc hd h5
  · rw [List.length_map]
    exact hlen5

/-- C4 witness: the eight-entry sample payload renders the first five
blocks in order. -/
theorem C4_truncation_top5_witness :
    gold_price (some payload8) =
      CommandOutput.message (String.intercalate "\n"
        ("💰【实时黄金价格TOP5】💰\n" ::
          (sampleEntries8.take 5).map (fun e => (renderEntry e).getD "") ++
          ["\n⏰ 更新时间：" ++ timestampOf payload8])) ∧
    ((sampleEntries8.take 5).map (fun e => (renderEntry e).getD "")).length = 5 :=
  C4_truncation_top5 payload8 sampleEntries8 rfl rfl (by decide) (by decide)

/-- C5: a payload carrying both keys, code 200 and an empty data sequence
produces the informational no-data message and not an error. -/
theorem C5_empty_data_no_error (p : Payload)
    (hc : p.code = some 200) (hd : p.data = some (DataField.list [])) :
    gold_price (some p) = CommandOutput.message "🕒 当前无黄金行情数据" ∧
    (gold_price (some p)).isError = false := by
  have h := gold_price_empty_slice p [] hc hd rfl
  refine ⟨h, ?_⟩
  rw [h]
  rfl

/-- C5 witness: the scenario payload with code 200, empty data and a time
field yields the no-data message. -/
theorem C5_empty_data_no_error_witness :
    gold_price (some ⟨some 200, none, some (DataField.list []),
      some "2024-01-01", none, []⟩) =
      CommandOutput.message "🕒 当前无黄金行情数据" ∧
    (gold_price (some ⟨some 200, none, some (DataField.list []),
      some "2024-01-01", none, []⟩)).isError = false :=
  C5_empty_data_no_error _ rfl rfl

/-- C6: under a valid payload the handler always delivers a message (never
a pipeline-wide error); the body lists exactly the blocks of the entries
among the first five that render, an entry missing a required field is
skipped, and a complete entry renders its block. -/
theorem C6_skip_incomplete_entries (p : Payload) (es : List Entry)
    (hc : p.code = some 200) (hd : p.data = some (DataField.list es)) :
    (∃ body, gold_price (some p) = CommandOutput.message body) ∧
    ((es.take 5).isEmpty = false →
      gold_price (some p) =
        CommandOutput.message (String.intercalate "\n"
          ("💰【实时黄金价格TOP5】💰\n" :: (es.take 5).filterMap renderEntry ++
            ["\n⏰ 更新时间：" ++ timestampOf p]))) ∧
    (∀ e : Entry,
      (e.title = none ∨ e.price = none ∨ e.changepercent = none ∨
        e.maxprice = none ∨ e.minprice = none) → renderEntry e = none) ∧
    (∀ t pr ch mx mn : String,
      renderEntry ⟨some t, some pr, some ch, some mx, some mn⟩ =
        some (entryBlock t pr ch mx mn)) := by
  refine ⟨?_, ?_, ?_, ?_⟩
  · rcases h5 : (es.take 5).isEmpty with _ | _
    · exact ⟨_, gold_price_render_eq p es hc hd h5⟩
    · exact ⟨_, gold_price_empty_slice p es hc hd h5⟩
  · intro h5
    exact gold_price_render_eq p es hc hd h5
  · intro e h
    obtain ⟨t, pr, ch, mx, mn⟩ := e
    rcases t with _ | t <;> rcases pr with _ | pr <;> rcases ch with _ | ch <;>
      rcases mx with _ | mx <;> rcases mn with _ | mn <;>
      first
        | rfl
        | simp_all
  · intro t pr ch mx mn
    rfl

/-- C6 witness: the mixed sample payload renders the two complete entries
and skips the incomplete one, delivering a message. -/
theorem C6_skip_incomplete_entries_witness :
    gold_price (some payloadMixed) =
      CommandOutput.message (String.intercalate "\n"
        ("💰【实时黄金价格TOP5】💰\n" ::
          (mixedEntries.take 5).filterMap renderEntry ++
          ["\n⏰ 更新时间：" ++ timestampOf payloadMixed])) ∧
    renderEntry ⟨some "沪金95", none, some "0.5", some "481", some "477"⟩ = none :=
  ⟨(C6_skip_incomplete_entries payloadMixed mixedEntries rfl rfl).2.1 (by decide),
   (C6_skip_incomplete_entries payloadMixed mixedEntries rfl rfl).2.2.1
      ⟨some "沪金95", none, some "0.5", some "481", some "477"⟩
      (Or.inr (Or.inl rfl))⟩

/-- C7: for every HTTP response whose status is not 200, fetch_data returns
None and never attempts to parse the body as JSON. -/
theorem C7_fetch_non200_no_parse (status : Nat) (bodyJson : Option Payload)
    (h : status ≠ 200) :
    fetch_data (HttpOutcome.response status bodyJson) = none ∧
    fetch_dataParsed (HttpOutcome.response status bodyJson) = false := by
  constructor <;>
    simp [fetch_data, fetch_dataParsed, fetch_dataRun, h]

/-- C7 witness: a 500 response returns None without parsing. -/
theorem C7_fetch_non200_no_parse_witness :
    fetch_data (HttpOutcome.response 500 (some payload8)) = none ∧
    fetch_dataParsed (HttpOutcome.response 500 (some payload8)) = false :=
  C7_fetch_non200_no_parse 500 (some payload8) (by decide)

/-- C8: rendering is deterministic in the payload: the output is the same
under any two ambient clocks, formatting the same fetch result twice gives
the same output, and for a valid payload the rendered text takes its
update-time line from the payload itself. -/
theorem C8_render_deterministic (t1 t2 : String) (fetched : Option Payload) :
    gold_priceAt t1 fetched = gold_priceAt t2 fetched ∧
    gold_price fetched = gold_price fetched ∧
    (∀ p es, fetched = some p → p.code = some 200 →
      p.data = some (DataField.list es) → (es.take 5).isEmpty = false →
      gold_priceAt t1 fetched =
        CommandOutput.message (String.intercalate "\n"
          ("💰【实时黄金价格TOP5】💰\n" :: (es.take 5).filterMap renderEntry ++
            ["\n⏰ 更新时间：" ++ timestampOf p]))) := by
  refine ⟨rfl, rfl, ?_⟩
  intro p es hf hc hd h5
  subst hf
  exact gold_price_render_eq p es hc hd h5

/-- C8 witness: the mixed sample payload renders identically under two
different clocks, with the update-time line taken from the payload. -/
theorem C8_render_deterministic_witness :
    gold_priceAt "2026-10-12 00:00:00" (some payloadMixed) =
      gold_priceAt "1999-01-01 00:00:00" (some payloadMixed) ∧
    gold_priceAt "2026-10-12 00:00:00" (some payloadMixed) =
      CommandOutput.message (String.intercalate "\n"
        ("💰【实时黄金价格TOP5】💰\n" ::
          (mixedEntries.take 5).filterMap renderEntry ++
          ["\n⏰ 更新时间：" ++ timestampOf payloadMixed])) :=
  ⟨(C8_render_deterministic "2026-10-12 00:00:00" "1999-01-01 00:00:00"
      (some payloadMixed)).1,
   (C8_render_deterministic "2026-10-12 00:00:00" "1999-01-01 00:00:00"
      (some payloadMixed)).2.2 payloadMixed mixedEntries rfl rfl rfl (by decide)⟩

/-- C9 counterexample: fetch_data collapses distinct failure causes (bad
status, decode failure, transport failure, unknown exception) to the same
untyped None, so the caller cannot distinguish them. -/
theorem C9_counterexample_untyped_failures :
    fetch_data (HttpOutcome.response 500 none) = none ∧
    fetch_data (HttpOutcome.response 200 none) = none ∧
    fetch_data (HttpOutcome.clientError "connection refused") = none ∧
    fetch_data (HttpOutcome.otherError "unexpected") = none ∧
    fetch_data (HttpOutcome.response 500 none) =
      fetch_data (HttpOutcome.clientError "connection refused") := by
  refine ⟨by decide, by decide, by decide, by decide, by decide⟩

/-- C9 (amended): fetch_data returns the same untyped failure None for
every failure cause; the causes are distinguished only in log output, not
in the returned value. -/
theorem C9_amended_uniform_none (status : Nat) (bodyJson : Option Payload)
    (detail : String) (h : status ≠ 200 ∨ bodyJson = none) :
    fetch_data (HttpOutcome.response status bodyJson) = none ∧
    fetch_data (HttpOutcome.clientError detail) = none ∧
    fetch_data (HttpOutcome.otherError detail) = none := by
  refine ⟨?_, rfl, rfl⟩
  rcases h with h | h
  · simp [fetch_data, fetch_dataRun, h]
  · subst h
    simp only [fetch_data, fetch_dataRun]
    split <;> rfl

/-- C9 witness: a 500 status, an unparsable body and a transport failure
all return None. -/
theorem C9_amended_uniform_none_witness :
    fetch_data (HttpOutcome.response 500 none) = none ∧
    fetch_data (HttpOutcome.clientError "timeout") = none ∧
    fetch_data (HttpOutcome.otherError "timeout") = none :=
  C9_amended_uniform_none 500 none "timeout" (Or.inl (by decide))

/-- C10: with a time key present only the part of its value before the
first dot is displayed (an empty time value gives an empty timestamp, not
the placeholder); the placeholder appears only when the time key is
absent; and the api_source value never influences the output. -/
theorem C10_update_time_line (p : Payload) (t : String) :
    (p.time = some t →
      timestampOf p = String.mk (t.data.takeWhile (fun c => c ≠ '.')) ∧
      (∃ rest, t.data = (timestampOf p).data ++ rest) ∧
      (∀ c ∈ (timestampOf p).data, c ≠ '.')) ∧
    (p.time = some "" → timestampOf p = "" ∧ timestampOf p ≠ "未知时间") ∧
    (p.time = none → timestampOf p = "未知时间") ∧
    (∀ a b : String,
      gold_price (some { p with api_source := some a }) =
        gold_price (some { p with api_source := some b })) ∧
    (p.code.isSome = true → ∀ a : String,
      gold_price (some { p with api_source := some a }) =
        gold_price (some { p with api_source := none })) := by
  refine ⟨?_, ?_, ?_, ?_, ?_⟩
  · intro h
    have ht : timestampOf p = String.mk (t.data.takeWhile (fun c => c ≠ '.')) := by
      simp [timestampOf, h]
    refine ⟨ht, ⟨t.data.dropWhile (fun c => c ≠ '.'), ?_⟩, ?_⟩
    · rw [ht]
      exact (List.takeWhile_append_dropWhile _ _).symm
    · intro c hc
      rw [ht] at hc
      have hc2 : c ∈ t.data.takeWhile (fun ch => decide (ch ≠ '.')) := hc
      have hc3 := List.mem_takeWhile_imp hc2
      exact of_decide_eq_true hc3
  · intro h
    have ht : timestampOf p = String.mk ("".data.takeWhile (fun c => c ≠ '.')) := by
      simp [timestampOf, h]
    rw [ht]
    exact ⟨by decide, by decide⟩
  · intro h
    simp [timestampOf, h]
  · intro a b
    obtain ⟨pc, pm, pd, pt, pa, pe⟩ := p
    rcases pd with _ | df
    · simp [gold_price, Payload.falsy]
    · rcases df with es | d <;>
        simp [gold_price, Payload.falsy, formatValid, timestampOf]
  · intro hcode a
    obtain ⟨pc, pm, pd, pt, pa, pe⟩ := p
    rcases pc with _ | c
    · simp at hcode
    · rcases pd with _ | df
      · simp [gold_price, Payload.falsy]
      · rcases df with es | d <;>
          simp [gold_price, Payload.falsy, formatValid, timestampOf]

/-- C10 witness: the sample payload displays only the part of its time
value before the dot, an empty time value displays empty, a missing time
key displays the placeholder, and changing api_source changes nothing. -/
theorem C10_update_time_line_witness :
    timestampOf payload8 = "2024-01-01 12:30:45" ∧
    timestampOf { payload8 with time := some "" } = "" ∧
    timestampOf { payload8 with time := none } = "未知时间" ∧
    gold_price (some { payload8 with api_source := some "A" }) =
      gold_price (some { payload8 with api_source := some "B" }) :=
  ⟨((C10_update_time_line payload8 "2024-01-01 12:30:45.123").1 rfl).1.trans
      (by decide),
   (((C10_update_time_line { payload8 with time := some "" } "").2.1) rfl).1,
   ((C10_update_time_line { payload8 with time := none } "x").2.2.1) rfl,
   (C10_update_time_line payload8 "x").2.2.2.1 "A" "B"⟩
